import Mathlib

/-!
Verification of the survey ingestion and sentiment-enrichment pipeline.

The definitions below are a shallow embedding of the repository's code:

* `src/domain/models.py` — the stored entities (`Employee`, `Survey`,
  `Response`, `ResponseSentiment`) become Lean structures whose fields are
  exactly the declared table columns; the database session becomes the
  explicit state record `Db`.
* `src/domain/schemas.py` — the pydantic validators become the functions
  `empty_str_to_none`, `handle_empty_values`, `validate_employee` and
  `validate_survey_payload`.
* `src/application/services/ingestion.py` — `_has_text_changes`,
  `_has_any_changes`, `_update_response_data`, `_load_data`, the per-row body
  of `_process_responses_and_ai` and the transaction skeleton of
  `run_pipeline` become `has_text_changes`, `has_any_changes`,
  `update_response_data`, `load_data`, `process_row` / `process_rows` and
  `run_pipeline`.
* `src/application/services/sentiment.py` — `_map_stars_to_label` and
  `analyze_response` become `map_stars_to_label` and `analyze_response`; the
  HuggingFace pipeline is the black-box parameter `SentimentEngine`.

Python string primitives (`str.strip`, `str.split`, `int(...)`) are modelled
by structurally recursive functions over character lists (`py_strip`,
`py_split_ws`, `py_int_of_token`), restricted to ASCII whitespace and ASCII
decimal digits, which covers all data the pipeline handles.
-/

/-- Whitespace test modelling the character class stripped and split on by
Python's `str.strip()` and `str.split()`, restricted to ASCII whitespace. -/
def py_is_space (c : Char) : Bool :=
  c == ' ' || c == '\t' || c == '\n' || c == '\r' || c == '\x0b' || c == '\x0c'

/-- Drops leading and trailing whitespace from a character list. -/
def py_strip_chars (l : List Char) : List Char :=
  ((l.dropWhile py_is_space).reverse.dropWhile py_is_space).reverse

/-- Models Python `s.strip()` (no argument). -/
def py_strip (s : String) : String :=
  String.mk (py_strip_chars s.toList)

/-- Accumulator-style splitter on runs of whitespace, discarding empty
pieces; models Python `s.split()` (no argument). -/
def py_split_ws_chars : List Char → List Char → List (List Char)
  | [], cur => if cur.isEmpty then [] else [cur.reverse]
  | c :: cs, cur =>
    if py_is_space c then
      if cur.isEmpty then py_split_ws_chars cs []
      else cur.reverse :: py_split_ws_chars cs []
    else py_split_ws_chars cs (c :: cur)

/-- Models Python `s.split()` (no argument). -/
def py_split_ws (s : String) : List String :=
  (py_split_ws_chars s.toList []).map String.mk

/-- Splits a character list on underscores (used for the digit-group syntax
accepted by Python `int`). -/
def split_underscore : List Char → List Char → List (List Char)
  | [], cur => [cur.reverse]
  | c :: cs, cur =>
    if c = '_' then cur.reverse :: split_underscore cs []
    else split_underscore cs (c :: cur)

/-- Numeric value of a list of ASCII decimal digits. -/
def digits_val (l : List Char) : Nat :=
  l.foldl (fun a c => a * 10 + (c.toNat - 48)) 0

/-- Unsigned part of Python `int(token)`: one or more ASCII digit groups
separated by single underscores (no leading, trailing or doubled
underscore). -/
def py_int_core (l : List Char) : Option Nat :=
  let groups := split_underscore l []
  if groups.all (fun g => !g.isEmpty && g.all Char.isDigit) then
    some (digits_val (groups.foldl (fun a g => a ++ g) []))
  else
    none

/-- Models Python `int(token)` on a whitespace-free token: an optional sign
followed by ASCII digit groups; `none` models the `ValueError` raised on any
other input. -/
def py_int_of_token (s : String) : Option Int :=
  match s.toList with
  | '+' :: rest => (py_int_core rest).map (fun n => (n : Int))
  | '-' :: rest => (py_int_core rest).map (fun n => -(n : Int))
  | l => (py_int_core l).map (fun n => (n : Int))

/-- Employee entity from `src/domain/models.py`; only the identity columns
needed by the verified pipeline passes are modelled. -/
structure Employee where
  id : Nat
  email : String
deriving DecidableEq, Repr

/-- Survey entity from `src/domain/models.py`; the survey date is carried as
an opaque token. -/
structure Survey where
  id : Nat
  date : String
deriving DecidableEq, Repr

/-- Response entity from `src/domain/models.py`: the two foreign keys, the 8
integer metric columns and the 8 qualitative text columns (nullable columns
become `Option`). -/
structure Response where
  id : Nat
  employee_id : Nat
  survey_id : Nat
  role_interest : Option Int
  contribution : Option Int
  learning : Option Int
  feedback_score : Option Int
  manager_interaction : Option Int
  career_clarity : Option Int
  permanence : Option Int
  enps : Option Int
  role_interest_comment : Option String
  contribution_comment : Option String
  learning_comment : Option String
  feedback_comment : Option String
  manager_interaction_comment : Option String
  career_clarity_comment : Option String
  permanence_comment : Option String
  enps_comment : Option String
deriving DecidableEq, Repr

/-- ResponseSentiment entity with exactly the columns declared in
`src/domain/models.py` (id, response_id, field_name, sentiment_label,
sentiment_score; created_at is irrelevant to the claims and omitted). Note
that the table declares no `sentiment_rating` column. The inference
confidence is a Python float carried around opaquely; it is modelled as a
rational number since no arithmetic is ever performed on it. -/
structure ResponseSentiment where
  id : Nat
  response_id : Nat
  field_name : String
  sentiment_label : String
  sentiment_score : Rat
deriving DecidableEq, Repr

/-- Column names declared on the `response_sentiments` table in
`src/domain/models.py`. -/
def responseSentimentColumns : List String :=
  ["id", "response_id", "field_name", "sentiment_label", "sentiment_score",
   "created_at"]

/-- Keyword arguments passed to the `ResponseSentiment` constructor by
`SentimentAnalysisService.analyze_response` in
`src/application/services/sentiment.py`. -/
def responseSentimentInsertKwargs : List String :=
  ["response_id", "field_name", "sentiment_label", "sentiment_score",
   "sentiment_rating"]

/-- The SQLAlchemy declarative constructor raises `TypeError` when given a
keyword argument that is not an attribute of the mapped class, so the insert
in `analyze_response` raises exactly when some constructor keyword is not a
declared column. -/
def insert_raises : Bool :=
  !(responseSentimentInsertKwargs.all (fun k => responseSentimentColumns.contains k))

/-- Validated survey-response row, mirroring `SurveyResponseSchema` in
`src/domain/schemas.py`: the 8 optional integer metrics and the 8 optional
comment texts. The `response_date` field is consumed only to resolve the
survey foreign key and is modelled by the resolved `survey_id` carried next
to the DTO in `InRow`. -/
structure SurveyResponseSchema where
  role_interest : Option Int
  contribution : Option Int
  learning : Option Int
  feedback_score : Option Int
  manager_interaction : Option Int
  career_clarity : Option Int
  permanence : Option Int
  enps : Option Int
  role_interest_comment : Option String
  contribution_comment : Option String
  learning_comment : Option String
  feedback_comment : Option String
  manager_interaction_comment : Option String
  career_clarity_comment : Option String
  permanence_comment : Option String
  enps_comment : Option String
deriving DecidableEq, Repr

/-- Database session state threaded through the pipeline: the four tables
plus the autoincrement counter for new responses. -/
structure Db where
  employees : List Employee
  surveys : List Survey
  responses : List Response
  sentiments : List ResponseSentiment
  next_response_id : Nat
deriving DecidableEq, Repr

def empty_db : Db :=
  { employees := [], surveys := [], responses := [], sentiments := [],
    next_response_id := 1 }

/-- Metric column pairs (stored value, incoming value) in the order listed in
`IngestionService._has_any_changes`. -/
def metric_fields (r : Response) (dto : SurveyResponseSchema) :
    List (Option Int × Option Int) :=
  [(r.role_interest, dto.role_interest),
   (r.contribution, dto.contribution),
   (r.learning, dto.learning),
   (r.feedback_score, dto.feedback_score),
   (r.manager_interaction, dto.manager_interaction),
   (r.career_clarity, dto.career_clarity),
   (r.permanence, dto.permanence),
   (r.enps, dto.enps)]

/-- Text column pairs (stored value, incoming value) in the order listed in
`IngestionService._has_text_changes`. -/
def text_fields (r : Response) (dto : SurveyResponseSchema) :
    List (Option String × Option String) :=
  [(r.role_interest_comment, dto.role_interest_comment),
   (r.contribution_comment, dto.contribution_comment),
   (r.learning_comment, dto.learning_comment),
   (r.feedback_comment, dto.feedback_comment),
   (r.manager_interaction_comment, dto.manager_interaction_comment),
   (r.career_clarity_comment, dto.career_clarity_comment),
   (r.permanence_comment, dto.permanence_comment),
   (r.enps_comment, dto.enps_comment)]

/-- Models `IngestionService._has_text_changes`: some qualitative field
differs after `(value or '').strip()` normalization on both sides. -/
def has_text_changes (r : Response) (dto : SurveyResponseSchema) : Bool :=
  (text_fields r dto).any
    (fun p => decide (py_strip (p.1.getD "") ≠ py_strip (p.2.getD "")))

/-- Models `IngestionService._has_any_changes`: some metric differs (strict
inequality of nullable values) or some text field differs after trimming. -/
def has_any_changes (r : Response) (dto : SurveyResponseSchema) : Bool :=
  (metric_fields r dto).any (fun p => decide (p.1 ≠ p.2)) || has_text_changes r dto

/-- Models `IngestionService._update_response_data`: overwrites all 8 metric
and 8 text fields of the response from the DTO. -/
def update_response_data (r : Response) (dto : SurveyResponseSchema) : Response :=
  { r with
    role_interest := dto.role_interest,
    contribution := dto.contribution,
    learning := dto.learning,
    feedback_score := dto.feedback_score,
    manager_interaction := dto.manager_interaction,
    career_clarity := dto.career_clarity,
    permanence := dto.permanence,
    enps := dto.enps,
    role_interest_comment := dto.role_interest_comment,
    contribution_comment := dto.contribution_comment,
    learning_comment := dto.learning_comment,
    feedback_comment := dto.feedback_comment,
    manager_interaction_comment := dto.manager_interaction_comment,
    career_clarity_comment := dto.career_clarity_comment,
    permanence_comment := dto.permanence_comment,
    enps_comment := dto.enps_comment }

/-- Black-box inference engine (the HuggingFace pipeline): raw text to the
first result's `(label, score)`; `none` models an exception raised during
inference, which `analyze_response` catches per field. -/
def SentimentEngine : Type := String → Option (String × Rat)

/-- Models `SentimentAnalysisService._map_stars_to_label`: take the first
whitespace-separated token of the label, parse it with `int`; >= 4 is
POSITIVE, <= 2 is NEGATIVE, otherwise NEUTRAL; the `except (ValueError,
IndexError)` fallback returns NEUTRAL. -/
def map_stars_to_label (star_label : String) : String :=
  match py_split_ws star_label with
  | [] => "NEUTRAL"
  | tok :: _ =>
    match py_int_of_token tok with
    | none => "NEUTRAL"
    | some stars =>
      if 4 ≤ stars then "POSITIVE"
      else if stars ≤ 2 then "NEGATIVE"
      else "NEUTRAL"

/-- The comment attributes iterated by `analyze_response`, in source order. -/
def comment_fields_list : List String :=
  ["role_interest_comment", "contribution_comment", "learning_comment",
   "feedback_comment", "manager_interaction_comment",
   "career_clarity_comment", "permanence_comment", "enps_comment"]

/-- Models `getattr(response, field_name)` for the comment attributes. -/
def response_text (r : Response) : String → Option String
  | "role_interest_comment" => r.role_interest_comment
  | "contribution_comment" => r.contribution_comment
  | "learning_comment" => r.learning_comment
  | "feedback_comment" => r.feedback_comment
  | "manager_interaction_comment" => r.manager_interaction_comment
  | "career_clarity_comment" => r.career_clarity_comment
  | "permanence_comment" => r.permanence_comment
  | "enps_comment" => r.enps_comment
  | _ => none

/-- Replaces the first element satisfying `p` by its image under `f`,
modelling an in-place update of the row returned by `query.first()`. -/
def replace_first (p : α → Bool) (f : α → α) : List α → List α
  | [] => []
  | x :: xs => if p x then f x :: xs else x :: replace_first p f xs

/-- One iteration of the field loop in `analyze_response`: skip absent, empty
or shorter-than-3 (trimmed) text; otherwise call the engine (the returned
count records the inference call), parse the star value, and upsert by
`(response_id, field_name)`. An inference exception or an unparseable label
is caught by the per-field handler and leaves the table unchanged. The
insert branch constructs `ResponseSentiment` with a `sentiment_rating`
keyword that is not a mapped column, so it raises `TypeError`, which the
per-field handler also swallows (see `insert_raises`). -/
def analyze_one_field (engine : SentimentEngine) (resp : Response)
    (sents : List ResponseSentiment) (field : String) :
    List ResponseSentiment × Nat :=
  match response_text resp field with
  | none => (sents, 0)
  | some t =>
    if (py_strip t).length < 3 then (sents, 0)
    else
      match engine t with
      | none => (sents, 1)
      | some (label_str, score) =>
        match py_int_of_token ((py_split_ws label_str).headD "") with
        | none => (sents, 1)
        | some _stars =>
          let label := map_stars_to_label label_str
          match sents.find? (fun srow =>
              decide (srow.response_id = resp.id) && decide (srow.field_name = field)) with
          | some _ =>
            (replace_first
              (fun srow =>
                decide (srow.response_id = resp.id) && decide (srow.field_name = field))
              (fun srow =>
                { srow with sentiment_label := label, sentiment_score := score })
              sents, 1)
          | none =>
            if insert_raises then (sents, 1)
            else
              ({ id := 0, response_id := resp.id, field_name := field,
                 sentiment_label := label, sentiment_score := score } :: sents, 1)

/-- Models `SentimentAnalysisService.analyze_response`: look the response up
by primary key (return unchanged when absent), then run the field loop over
the 8 comment attributes. The second component counts inference-engine
invocations. -/
def analyze_response (engine : SentimentEngine) (db : Db) (response_id : Nat) :
    Db × Nat :=
  match db.responses.find? (fun r => decide (r.id = response_id)) with
  | none => (db, 0)
  | some resp =>
    let out := comment_fields_list.foldl
      (fun acc field =>
        let step := analyze_one_field engine resp acc.1 field
        (step.1, acc.2 + step.2))
      (db.sentiments, 0)
    ({ db with sentiments := out.1 }, out.2)

example : map_stars_to_label "5 stars" = "POSITIVE" := by decide
example : map_stars_to_label "1 star" = "NEGATIVE" := by decide
example : map_stars_to_label "3 stars" = "NEUTRAL" := by decide
example : map_stars_to_label "invalid" = "NEUTRAL" := by decide
example : insert_raises = true := by decide

/-- One input row of the response pass, as seen by the loop body of
`IngestionService._process_responses_and_ai` after schema validation and
foreign-key resolution: `invalid` is a row whose `SurveyResponseSchema`
construction raised (caught by the per-row handler, counted as an error);
`unresolved` is a row whose employee or survey lookup failed (silently
skipped by `continue`); `valid` carries the resolved keys and the DTO.
Identical input resolves identically across runs because the structural
passes upsert employees by email and surveys by date. -/
inductive InRow where
  | invalid : InRow
  | unresolved : InRow
  | valid (emp_id survey_id : Nat) (dto : SurveyResponseSchema) : InRow
deriving DecidableEq, Repr

/-- Run statistics accumulated by `_process_responses_and_ai`. -/
structure RunStats where
  created : Nat
  updated : Nat
  skipped : Nat
  ai_analyzed : Nat
  errors : Nat
deriving DecidableEq, Repr

def init_stats : RunStats :=
  { created := 0, updated := 0, skipped := 0, ai_analyzed := 0, errors := 0 }

def add_stats (a b : RunStats) : RunStats :=
  { created := a.created + b.created, updated := a.updated + b.updated,
    skipped := a.skipped + b.skipped, ai_analyzed := a.ai_analyzed + b.ai_analyzed,
    errors := a.errors + b.errors }

/-- Predicate for `Response.query.filter_by(employee_id=..., survey_id=...)`. -/
def pair_matches (e s : Nat) (r : Response) : Bool :=
  decide (r.employee_id = e) && decide (r.survey_id = s)

/-- A `Response(employee_id=..., survey_id=...)` as constructed in the create
branch: every data column starts at its NULL default. -/
def blank_response (rid e s : Nat) : Response :=
  { id := rid, employee_id := e, survey_id := s,
    role_interest := none, contribution := none, learning := none,
    feedback_score := none, manager_interaction := none,
    career_clarity := none, permanence := none, enps := none,
    role_interest_comment := none, contribution_comment := none,
    learning_comment := none, feedback_comment := none,
    manager_interaction_comment := none, career_clarity_comment := none,
    permanence_comment := none, enps_comment := none }

/-- Loop body of `IngestionService._process_responses_and_ai` for one row,
returning the new session state and this row's statistics increments.
Existing response: skip when `_has_any_changes` is false; otherwise evaluate
`_has_text_changes` against the stored (pre-update) values, overwrite all
fields in place, and when the text changed delete every sentiment row of the
response and re-run `analyze_response`. New response: create, then run
`analyze_response`. -/
def process_row (engine : SentimentEngine) (db : Db) : InRow → Db × RunStats
  | InRow.invalid => (db, { init_stats with errors := 1 })
  | InRow.unresolved => (db, init_stats)
  | InRow.valid e s dto =>
    match db.responses.find? (pair_matches e s) with
    | some resp =>
      if has_any_changes resp dto = false then
        (db, { init_stats with skipped := 1 })
      else
        let text_changed := has_text_changes resp dto
        let db2 := { db with
          responses := replace_first (pair_matches e s)
            (fun r => update_response_data r dto) db.responses }
        if text_changed then
          let db3 := { db2 with
            sentiments := db2.sentiments.filter
              (fun srow => decide (srow.response_id ≠ resp.id)) }
          ((analyze_response engine db3 resp.id).1,
            { init_stats with updated := 1, ai_analyzed := 1 })
        else
          (db2, { init_stats with updated := 1 })
    | none =>
      let rid := db.next_response_id
      let db2 := { db with
        responses := db.responses ++ [update_response_data (blank_response rid e s) dto],
        next_response_id := rid + 1 }
      ((analyze_response engine db2 rid).1,
        { init_stats with created := 1, ai_analyzed := 1 })

/-- The full row loop of `_process_responses_and_ai`: rows processed in input
order, statistics summed. -/
def process_rows (engine : SentimentEngine) : Db → List InRow → Db × RunStats
  | db, [] => (db, init_stats)
  | db, row :: rest =>
    let step := process_row engine db row
    let tail := process_rows engine step.1 rest
    (tail.1, add_stats step.2 tail.2)

/-- Pipeline-level error taxonomy: `noData` is the `FileNotFoundError` raised
by `_load_data`; `passFailure` stands for any other exception escaping a
pass. -/
inductive PipeErr where
  | noData : PipeErr
  | passFailure (msg : String) : PipeErr
deriving DecidableEq, Repr

/-- Models `IngestionService._load_data`. Inputs: `fetch_result` is the
outcome of the network request (`none` = `requests.RequestException`),
`force_local` skips the request, `cache` is the current content of the local
cache file. Output: the cache file content after the call, and either the
CSV text or the no-data error. The cache is written only in the successful
fetch branch. -/
def load_data (fetch_result : Option String) (force_local : Bool)
    (cache : Option String) : Option String × Except PipeErr String :=
  match (if force_local then none else fetch_result) with
  | some payload => (some payload, Except.ok payload)
  | none =>
    match cache with
    | some content => (cache, Except.ok content)
    | none => (cache, Except.error PipeErr.noData)

/-- Transaction skeleton of `IngestionService.run_pipeline`: run the body on
the committed state; on success commit the staged session state, on any
exception roll the session back (discard the staged state, keeping the
committed one) and re-raise the same exception. -/
def run_pipeline (committed : Db) (body : Db → Db × Except PipeErr RunStats) :
    Db × Except PipeErr RunStats :=
  match body committed with
  | (staged, Except.ok stats) => (staged, Except.ok stats)
  | (_, Except.error e) => (committed, Except.error e)

/-- The pipeline body as sequenced by `run_pipeline`: load the data (raising
aborts the run before touching the session), turn the CSV into rows
(structural synchronization, validation and key resolution abstracted into
`parse_rows`), then run the response pass. -/
def pipeline_body (engine : SentimentEngine) (fetch_result : Option String)
    (force_local : Bool) (cache : Option String)
    (parse_rows : String → List InRow) : Db → Db × Except PipeErr RunStats :=
  fun db =>
    match (load_data fetch_result force_local cache).2 with
    | Except.error e => (db, Except.error e)
    | Except.ok content =>
      let out := process_rows engine db (parse_rows content)
      (out.1, Except.ok out.2)

/-- Raw employee row as handed to `EmployeeSchema`: the CSV is read with
`dtype=str` and `fillna('')`, so every aliased column arrives as a string. -/
structure RawEmployeeRow where
  nome : String
  email : String
  email_corporativo : String
  area : String
  cargo : String
  funcao : String
  localidade : String
  tempo_de_empresa : String
  genero : String
  geracao : String
  n0_empresa : String
  n1_diretoria : String
  n2_gerencia : String
  n3_coordenacao : String
  n4_area : String
deriving DecidableEq, Repr

/-- Validated employee record produced by `EmployeeSchema`. -/
structure EmployeeSchema where
  name : String
  email : String
  corporate_email : Option String
  department : String
  role : Option String
  function : Option String
  location : Option String
  tenure : Option String
  gender : Option String
  generation : Option String
  company_level_0 : Option String
  directorate_level_1 : Option String
  management_level_2 : Option String
  coordination_level_3 : Option String
  area_level_4 : Option String
deriving DecidableEq, Repr

/-- Models the `empty_str_to_none` validator of `EmployeeSchema` (and the
identical `handle_empty_values` validator of `SurveyResponseSchema`): a
string that is blank after stripping, or exactly the dash placeholder, maps
to `None`. -/
def empty_str_to_none (v : String) : Option String :=
  if py_strip v = "" ∨ v = "-" then none else some v

/-- Models `EmployeeSchema(**row)`. The `empty_str_to_none` validator is
declared only for `corporate_email`, `role` and `function`; every other
optional string field receives the raw value unchanged. The email-syntax
check enforced by pydantic's `EmailStr` is abstracted as the `email_ok`
parameter; a failed check rejects the row. -/
def validate_employee (email_ok : String → Bool) (row : RawEmployeeRow) :
    Option EmployeeSchema :=
  if email_ok row.email then
    some
      { name := row.nome
        email := row.email
        corporate_email := empty_str_to_none row.email_corporativo
        department := row.area
        role := empty_str_to_none row.cargo
        function := empty_str_to_none row.funcao
        location := some row.localidade
        tenure := some row.tempo_de_empresa
        gender := some row.genero
        generation := some row.geracao
        company_level_0 := some row.n0_empresa
        directorate_level_1 := some row.n1_diretoria
        management_level_2 := some row.n2_gerencia
        coordination_level_3 := some row.n3_coordenacao
        area_level_4 := some row.n4_area }
  else none

/-- Raw survey-response payload row as handed to `SurveyResponseSchema`: the
8 metric columns and the 8 comment columns, each a string. The date column
is validated separately (its failure rejects the whole row) and is not part
of the payload model. -/
structure RawSurveyRow where
  interesse_no_cargo : String
  contribuicao : String
  aprendizado : String
  feedback : String
  interacao_com_gestor : String
  clareza_carreira : String
  expectativa_permanencia : String
  enps : String
  comentarios_interesse : String
  comentarios_contribuicao : String
  comentarios_aprendizado : String
  comentarios_feedback : String
  comentarios_interacao : String
  comentarios_clareza : String
  comentarios_permanencia : String
  aberta_enps : String
deriving DecidableEq, Repr

/-- Validation of one metric column of `SurveyResponseSchema`: the
`handle_empty_values` validator first maps blank or dash to `None` (an
absent metric), then pydantic coerces the remaining string to an integer;
an unparseable value is a row-level `ValidationError` (outer `none`). -/
def validate_metric (v : String) : Option (Option Int) :=
  match empty_str_to_none v with
  | none => some none
  | some t => (py_int_of_token (py_strip t)).map some

/-- Models the payload part of `SurveyResponseSchema(**row)`: every field
goes through `handle_empty_values`; metric fields must then parse as
integers or the row fails. -/
def validate_survey_payload (row : RawSurveyRow) : Option SurveyResponseSchema := do
  let ri ← validate_metric row.interesse_no_cargo
  let co ← validate_metric row.contribuicao
  let le ← validate_metric row.aprendizado
  let fb ← validate_metric row.feedback
  let mi ← validate_metric row.interacao_com_gestor
  let cc ← validate_metric row.clareza_carreira
  let pe ← validate_metric row.expectativa_permanencia
  let en ← validate_metric row.enps
  pure
    { role_interest := ri, contribution := co, learning := le,
      feedback_score := fb, manager_interaction := mi, career_clarity := cc,
      permanence := pe, enps := en,
      role_interest_comment := empty_str_to_none row.comentarios_interesse,
      contribution_comment := empty_str_to_none row.comentarios_contribuicao,
      learning_comment := empty_str_to_none row.comentarios_aprendizado,
      feedback_comment := empty_str_to_none row.comentarios_feedback,
      manager_interaction_comment := empty_str_to_none row.comentarios_interacao,
      career_clarity_comment := empty_str_to_none row.comentarios_clareza,
      permanence_comment := empty_str_to_none row.comentarios_permanencia,
      enps_comment := empty_str_to_none row.aberta_enps }

/-- Enrichment touches only the sentiments table. -/
theorem analyze_response_responses (engine : SentimentEngine) (db : Db) (rid : Nat) :
    ((analyze_response engine db rid).1).responses = db.responses ∧
    ((analyze_response engine db rid).1).employees = db.employees ∧
    ((analyze_response engine db rid).1).surveys = db.surveys ∧
    ((analyze_response engine db rid).1).next_response_id = db.next_response_id := by
  unfold analyze_response
  cases db.responses.find? (fun r => decide (r.id = rid)) <;> simp

/-- When the sentiments table holds no row for the response, the field loop
leaves it unchanged: the update branch is unreachable and the insert branch
raises (the `sentiment_rating` constructor keyword is not a column). -/
theorem analyze_one_field_fst_of_no_rows (engine : SentimentEngine)
    (resp : Response) (sents : List ResponseSentiment) (field : String)
    (h : ∀ srow ∈ sents, srow.response_id ≠ resp.id) :
    (analyze_one_field engine resp sents field).1 = sents := by
  have hins : insert_raises = true := by decide
  unfold analyze_one_field
  split
  · rfl
  split
  · rfl
  split
  · rfl
  split
  · rfl
  split
  · rename_i val hval
    exfalso
    have hmem := List.mem_of_find?_eq_some hval
    have hpred := List.find?_some hval
    simp only [Bool.and_eq_true, decide_eq_true_eq] at hpred
    exact h val hmem hpred.1
  · simp [hins]

/-- Fold version of the previous lemma, over any list of fields. -/
theorem analyze_fold_fst_of_no_rows (engine : SentimentEngine) (resp : Response)
    (fields : List String) (sents : List ResponseSentiment)
    (h : ∀ srow ∈ sents, srow.response_id ≠ resp.id) :
    ∀ n : Nat, (fields.foldl
      (fun acc field =>
        let step := analyze_one_field engine resp acc.1 field
        (step.1, acc.2 + step.2))
      (sents, n)).1 = sents := by
  induction fields with
  | nil => intro n; rfl
  | cons f fs ih =>
    intro n
    have h1 := analyze_one_field_fst_of_no_rows engine resp sents f h
    rw [List.foldl_cons]
    show (fs.foldl
      (fun acc field =>
        let step := analyze_one_field engine resp acc.1 field
        (step.1, acc.2 + step.2))
      ((analyze_one_field engine resp sents f).1,
        n + (analyze_one_field engine resp sents f).2)).1 = sents
    rw [h1]
    exact ih _

/-- Running enrichment on a response that owns no sentiment rows stages no
sentiment writes at all. -/
theorem analyze_response_sentiments_of_no_rows (engine : SentimentEngine)
    (db : Db) (rid : Nat)
    (h : ∀ srow ∈ db.sentiments, srow.response_id ≠ rid) :
    ((analyze_response engine db rid).1).sentiments = db.sentiments := by
  unfold analyze_response
  cases hf : db.responses.find? (fun r => decide (r.id = rid)) with
  | none => rfl
  | some resp =>
    have hid : resp.id = rid := by
      have := List.find?_some hf
      simpa using this
    simp only []
    rw [analyze_fold_fst_of_no_rows engine resp comment_fields_list db.sentiments
      (by intro srow hs; rw [hid]; exact h srow hs) 0]

/-- A response freshly overwritten from a DTO compares as unchanged against
that same DTO. -/
theorem has_any_changes_update (r : Response) (dto : SurveyResponseSchema) :
    has_any_changes (update_response_data r dto) dto = false := by
  simp [has_any_changes, has_text_changes, metric_fields, text_fields,
    update_response_data]

/-- The overwrite keeps the identity and foreign-key columns. -/
theorem pair_matches_update (e s : Nat) (r : Response) (dto : SurveyResponseSchema) :
    pair_matches e s (update_response_data r dto) = pair_matches e s r := rfl

/-- Replacing the first match of `q` by a `q`-preserving function maps the
found element through the function. -/
theorem find?_replace_first_self (q : α → Bool) (f : α → α) (l : List α)
    (hq : ∀ x, q x = true → q (f x) = true) :
    (replace_first q f l).find? q = (l.find? q).map f := by
  induction l with
  | nil => rfl
  | cons x xs ih =>
    by_cases hx : q x = true
    · simp [replace_first, hx, List.find?_cons, hq x hx]
    · have hx' : q x = false := by simpa using hx
      simp [replace_first, hx', List.find?_cons, ih]

/-- Replacing the first match of `q` is invisible to a disjoint predicate
`p`, provided the replacement does not create new `p`-matches. -/
theorem find?_replace_first_disjoint (p q : α → Bool) (f : α → α) (l : List α)
    (hpq : ∀ x, p x = true → q x = false)
    (hf : ∀ x, p (f x) = p x) :
    (replace_first q f l).find? p = l.find? p := by
  induction l with
  | nil => rfl
  | cons x xs ih =>
    by_cases hx : q x = true
    · have hpx : p x = false := by
        cases hp : p x
        · rfl
        · rw [hpq x hp] at hx; cases hx
      have hpfx : p (f x) = false := by rw [hf x]; exact hpx
      simp [replace_first, hx, List.find?_cons, hpx, hpfx]
    · have hx' : q x = false := by simpa using hx
      cases hp : p x <;>
        simp [replace_first, hx', List.find?_cons, hp, ih]

/-- Replacing an element by a key-preserving function keeps the key list. -/
theorem map_replace_first (q : α → Bool) (f : α → α) (g : α → β) (l : List α)
    (hf : ∀ x, g (f x) = g x) :
    (replace_first q f l).map g = l.map g := by
  induction l with
  | nil => rfl
  | cons x xs ih =>
    by_cases hx : q x = true
    · simp [replace_first, hx, hf]
    · have hx' : q x = false := by simpa using hx
      simp [replace_first, hx', ih]

/-- A text change implies a change. -/
theorem has_text_changes_imp_any (r : Response) (dto : SurveyResponseSchema)
    (h : has_text_changes r dto = true) : has_any_changes r dto = true := by
  unfold has_any_changes
  rw [h, Bool.or_true]

/-- Branch analysis of the row loop body on a valid row: exactly one of the
four reconciler states applies — UNCHANGED (skip), UPDATED without
enrichment, UPDATED with purge and enrichment, or NEW with enrichment. -/
theorem process_row_valid_spec (engine : SentimentEngine) (db : Db) (e s : Nat)
    (dto : SurveyResponseSchema) :
    (∃ resp, db.responses.find? (pair_matches e s) = some resp ∧
      ((has_any_changes resp dto = false ∧
        process_row engine db (InRow.valid e s dto) =
          (db, { init_stats with skipped := 1 }))
       ∨ (has_any_changes resp dto = true ∧ has_text_changes resp dto = false ∧
          process_row engine db (InRow.valid e s dto) =
            ({ db with
                responses :=
                  replace_first (pair_matches e s)
                    (fun r => update_response_data r dto) db.responses },
             { init_stats with updated := 1 }))
       ∨ (has_text_changes resp dto = true ∧
          process_row engine db (InRow.valid e s dto) =
            ((analyze_response engine
               { db with
                 responses :=
                   replace_first (pair_matches e s)
                     (fun r => update_response_data r dto) db.responses,
                 sentiments :=
                   db.sentiments.filter
                     (fun srow => decide (srow.response_id ≠ resp.id)) }
               resp.id).1,
             { init_stats with updated := 1, ai_analyzed := 1 }))))
    ∨ (db.responses.find? (pair_matches e s) = none ∧
       process_row engine db (InRow.valid e s dto) =
         ((analyze_response engine
            { db with
              responses :=
                db.responses ++
                  [update_response_data (blank_response db.next_response_id e s) dto],
              next_response_id := db.next_response_id + 1 }
            db.next_response_id).1,
          { init_stats with created := 1, ai_analyzed := 1 })) := by
  simp only [process_row]
  cases hf : db.responses.find? (pair_matches e s) with
  | none => exact Or.inr ⟨rfl, rfl⟩
  | some resp =>
    refine Or.inl ⟨resp, rfl, ?_⟩
    by_cases hch : has_any_changes resp dto = false
    · exact Or.inl ⟨hch, by simp [hch]⟩
    · have hch' : has_any_changes resp dto = true := by simpa using hch
      by_cases htc : has_text_changes resp dto = true
      · refine Or.inr (Or.inr ⟨htc, ?_⟩)
        simp [hch', htc]
      · have htc' : has_text_changes resp dto = false := by simpa using htc
        refine Or.inr (Or.inl ⟨hch', htc', ?_⟩)
        simp [hch', htc']

/-- C8: the star-to-label mapping is total on label strings and never
raises: when the leading whitespace-separated token parses as an integer n
it yields POSITIVE for n >= 4, NEGATIVE for n <= 2 and NEUTRAL for n = 3;
when the token does not parse, or there is no token at all, it yields
NEUTRAL; and the result is always one of the three labels. -/
theorem map_stars_total_and_correct (s : String) :
    (map_stars_to_label s = "POSITIVE" ∨ map_stars_to_label s = "NEUTRAL" ∨
      map_stars_to_label s = "NEGATIVE")
    ∧ (∀ tok rest, py_split_ws s = tok :: rest →
        (∀ n : Int, py_int_of_token tok = some n →
          ((4 ≤ n → map_stars_to_label s = "POSITIVE")
           ∧ (n ≤ 2 → map_stars_to_label s = "NEGATIVE")
           ∧ (n = 3 → map_stars_to_label s = "NEUTRAL")))
        ∧ (py_int_of_token tok = none → map_stars_to_label s = "NEUTRAL"))
    ∧ (py_split_ws s = [] → map_stars_to_label s = "NEUTRAL") := by
  refine ⟨?_, ?_, ?_⟩
  · unfold map_stars_to_label
    cases hs : py_split_ws s with
    | nil => simp
    | cons tok rest =>
      cases hg : py_int_of_token tok with
      | none => simp [hg]
      | some n =>
        by_cases h4 : 4 ≤ n
        · simp [hg, h4]
        · by_cases h2 : n ≤ 2 <;> simp [hg, h4, h2]
  · intro tok rest hsplit
    constructor
    · intro n hparse
      refine ⟨?_, ?_, ?_⟩
      · intro h4
        simp [map_stars_to_label, hsplit, hparse, h4]
      · intro h2
        have h4 : ¬ 4 ≤ n := by omega
        simp [map_stars_to_label, hsplit, hparse, h4, h2]
      · intro h3
        subst h3
        have h4 : ¬ (4 : Int) ≤ 3 := by omega
        have h2 : ¬ (3 : Int) ≤ 2 := by omega
        simp [map_stars_to_label, hsplit, hparse, h4, h2]
    · intro hparse
      simp [map_stars_to_label, hsplit, hparse]
  · intro hsplit
    simp [map_stars_to_label, hsplit]

/-- Witness for C8 at the concrete model outputs exercised by the repo's own
unit test. -/
theorem map_stars_total_and_correct_witness :
    map_stars_to_label "3 stars" = "NEUTRAL" ∧
    map_stars_to_label "5 stars" = "POSITIVE" ∧
    map_stars_to_label "1 star" = "NEGATIVE" ∧
    map_stars_to_label "invalid" = "NEUTRAL" :=
  ⟨(((map_stars_total_and_correct "3 stars").2.1 "3" ["stars"] (by decide)).1 3
      (by decide)).2.2 rfl,
   (((map_stars_total_and_correct "5 stars").2.1 "5" ["stars"] (by decide)).1 5
      (by decide)).1 (by decide),
   (((map_stars_total_and_correct "1 star").2.1 "1" ["star"] (by decide)).1 1
      (by decide)).2.1 (by decide),
   ((map_stars_total_and_correct "invalid").2.1 "invalid" [] (by decide)).2
      (by decide)⟩

/-- Trivial engine used by witnesses: every inference attempt raises. -/
def engine_none : SentimentEngine := fun _ => none

/-- C10: calling `analyze_response` with an unknown response id returns
normally, performs no inference call, and stages no sentiment write. -/
theorem analyze_missing_response_noop (engine : SentimentEngine) (db : Db)
    (rid : Nat)
    (h : db.responses.find? (fun r => decide (r.id = rid)) = none) :
    analyze_response engine db rid = (db, 0) := by
  unfold analyze_response
  rw [h]

/-- Witness for C10: id 7 on an empty database. -/
theorem analyze_missing_response_noop_witness :
    analyze_response engine_none empty_db 7 = (empty_db, 0) :=
  analyze_missing_response_noop engine_none empty_db 7 rfl

/-- C6: when any exception escapes the pipeline body, `run_pipeline` discards
every staged write — the committed state is exactly the pre-run state, in
particular its Response table — and re-raises the same exception. -/
theorem pipeline_rollback_on_error (committed : Db)
    (body : Db → Db × Except PipeErr RunStats) (e : PipeErr)
    (h : (body committed).2 = Except.error e) :
    run_pipeline committed body = (committed, Except.error e) ∧
    (run_pipeline committed body).1.responses = committed.responses := by
  unfold run_pipeline
  rcases hb : body committed with ⟨staged, r⟩
  rw [hb] at h
  simp only [] at h
  subst h
  exact ⟨rfl, rfl⟩

/-- A pipeline body that stages an employee, a survey and a response and
then fails, modelling an exception thrown inside a sync pass after earlier
passes already staged rows. -/
def failing_sync_body : Db → Db × Except PipeErr RunStats :=
  fun db =>
    ({ db with
        employees := { id := 1, email := "a@x.com" } :: db.employees,
        surveys := { id := 1, date := "2024-01-01" } :: db.surveys,
        responses := blank_response 1 1 1 :: db.responses },
     Except.error (PipeErr.passFailure "sync pass failed"))

/-- Witness for C6: the staged employee, survey and response rows are all
rolled back and the exception is re-raised. -/
theorem pipeline_rollback_on_error_witness :
    run_pipeline empty_db failing_sync_body
      = (empty_db, Except.error (PipeErr.passFailure "sync pass failed")) ∧
    (run_pipeline empty_db failing_sync_body).1.responses = [] :=
  pipeline_rollback_on_error empty_db failing_sync_body
    (PipeErr.passFailure "sync pass failed") rfl

/-- C7: the loader writes the cache file if and only if the network fetch
succeeds (the payload then overwrites the cache and is returned); on fetch
failure or forced-local the cache is read but never written; and when no
fetch succeeded and no cache exists the loader raises the no-data error and
the pipeline aborts with the committed database untouched. -/
theorem loader_cache_write_iff_fetch_success (engine : SentimentEngine)
    (fetch_result : Option String) (force_local : Bool) (cache : Option String)
    (db : Db) (parse_rows : String → List InRow) :
    (force_local = false → ∀ p, fetch_result = some p →
      load_data fetch_result force_local cache = (some p, Except.ok p))
    ∧ ((force_local = true ∨ fetch_result = none) →
      (load_data fetch_result force_local cache).1 = cache)
    ∧ ((force_local = true ∨ fetch_result = none) → cache = none →
      (load_data fetch_result force_local cache).2 = Except.error PipeErr.noData ∧
      run_pipeline db (pipeline_body engine fetch_result force_local cache parse_rows)
        = (db, Except.error PipeErr.noData)) := by
  refine ⟨?_, ?_, ?_⟩
  · intro hfl p hp
    subst hfl
    subst hp
    rfl
  · intro hor
    rcases hor with hfl | hp
    · subst hfl
      cases cache <;> rfl
    · subst hp
      cases force_local <;> cases cache <;> rfl
  · intro hor hc
    subst hc
    rcases hor with hfl | hp
    · subst hfl
      exact ⟨rfl, rfl⟩
    · subst hp
      cases force_local <;> exact ⟨rfl, rfl⟩

/-- Witness for C7: fetch failed, not forced local, no cache file. -/
theorem loader_cache_write_iff_fetch_success_witness :
    (load_data none false none).1 = none ∧
    (load_data none false none).2 = Except.error PipeErr.noData ∧
    run_pipeline empty_db (pipeline_body engine_none none false none (fun _ => []))
      = (empty_db, Except.error PipeErr.noData) := by
  have h := loader_cache_write_iff_fetch_success engine_none none false none
    empty_db (fun _ => [])
  exact ⟨h.2.1 (Or.inr rfl), (h.2.2 (Or.inr rfl) rfl).1, (h.2.2 (Or.inr rfl) rfl).2⟩

/-- Deterministic engine mirroring the mocked pipeline of the repo's unit
test `test_analyze_response_creation`: the sample comment maps to
`('5 stars', 0.99)`; anything else raises. -/
def engine_positive : SentimentEngine :=
  fun t =>
    if t = "I love this job, it is amazing!" then some ("5 stars", (99 : Rat) / 100)
    else none

def response_c3 : Response :=
  { blank_response 1 1 1 with
      role_interest_comment := some "I love this job, it is amazing!" }

def db_c3 : Db :=
  { empty_db with responses := [response_c3], next_response_id := 2 }

/-- C3 (code bug): the `ResponseSentiment` constructor call in
`analyze_response` passes a `sentiment_rating` keyword, but the mapped class
in `src/domain/models.py` declares no such column, so the insert raises
`TypeError`; the per-field handler swallows it and no sentiment row is ever
inserted. On the repo's own unit-test scenario (a fresh response whose
`role_interest_comment` is `"I love this job, it is amazing!"` and an engine
answering `('5 stars', 0.99)`) the inference engine is invoked once, yet the
sentiments table stays empty — the test asserts one row with label POSITIVE
and rating 5. -/
theorem sentiment_rating_column_missing :
    responseSentimentInsertKwargs.contains "sentiment_rating" = true
    ∧ responseSentimentColumns.contains "sentiment_rating" = false
    ∧ insert_raises = true
    ∧ (analyze_response engine_positive db_c3 1).2 = 1
    ∧ ((analyze_response engine_positive db_c3 1).1).sentiments = [] := by
  refine ⟨by decide, by decide, by decide, ?_, ?_⟩ <;> rfl

/-- C5: a row whose metrics all equal the stored metrics and whose text
fields all equal the stored texts after trimming surrounding whitespace is
classified UNCHANGED: `text_changed` is false, nothing is mutated, no
enrichment runs, and the row counts as skipped. -/
theorem trimmed_whitespace_not_a_change (engine : SentimentEngine) (db : Db)
    (e s : Nat) (dto : SurveyResponseSchema) (resp : Response)
    (hfind : db.responses.find? (pair_matches e s) = some resp)
    (hm : ∀ p ∈ metric_fields resp dto, p.1 = p.2)
    (ht : ∀ p ∈ text_fields resp dto,
      py_strip (p.1.getD "") = py_strip (p.2.getD "")) :
    has_text_changes resp dto = false ∧ has_any_changes resp dto = false ∧
    process_row engine db (InRow.valid e s dto)
      = (db, { init_stats with skipped := 1 }) := by
  have htc : has_text_changes resp dto = false := by
    unfold has_text_changes
    rw [List.any_eq_false]
    intro p hp
    simp [ht p hp]
  have hac : has_any_changes resp dto = false := by
    unfold has_any_changes
    rw [Bool.or_eq_false_iff]
    refine ⟨?_, htc⟩
    rw [List.any_eq_false]
    intro p hp
    simp [hm p hp]
  refine ⟨htc, hac, ?_⟩
  rcases process_row_valid_spec engine db e s dto with ⟨resp', hf', hcase⟩ | ⟨hf', _⟩
  · rw [hfind] at hf'
    injection hf' with hr
    subst hr
    rcases hcase with ⟨_, hout⟩ | ⟨hch, _, _⟩ | ⟨htc2, _⟩
    · exact hout
    · rw [hac] at hch; cases hch
    · rw [htc] at htc2; cases htc2
  · rw [hfind] at hf'; cases hf'

def dto_c5 : SurveyResponseSchema :=
  { role_interest := some 4, contribution := none, learning := none,
    feedback_score := none, manager_interaction := none,
    career_clarity := none, permanence := none, enps := some 10,
    role_interest_comment := none, contribution_comment := none,
    learning_comment := none, feedback_comment := none,
    manager_interaction_comment := none, career_clarity_comment := none,
    permanence_comment := none, enps_comment := some "Great place!" }

/-- Stored response differing from `dto_c5` only by surrounding whitespace
in the eNPS comment. -/
def response_c5 : Response :=
  { update_response_data (blank_response 1 1 1) dto_c5 with
      enps_comment := some "  Great place!  " }

def db_c5 : Db :=
  { empty_db with responses := [response_c5], next_response_id := 2 }

/-- Witness for C5: a whitespace-only edit of the stored eNPS comment is
skipped. -/
theorem trimmed_whitespace_not_a_change_witness :
    has_text_changes response_c5 dto_c5 = false ∧
    has_any_changes response_c5 dto_c5 = false ∧
    process_row engine_none db_c5 (InRow.valid 1 1 dto_c5)
      = (db_c5, { init_stats with skipped := 1 }) :=
  trimmed_whitespace_not_a_change engine_none db_c5 1 1 dto_c5 response_c5 rfl
    (by decide) (by decide)

/-- C1: on a row matching an existing response, the reconciler evaluates
`text_changed` against the stored (pre-update) values: enrichment runs iff
that predicate holds on the pre-update state; when it holds, all sentiment
rows of the response are purged and the fields are overwritten; when only
metrics changed, the fields are overwritten but the sentiments are untouched
and no enrichment is invoked. -/
theorem text_changed_evaluated_pre_update (engine : SentimentEngine) (db : Db)
    (e s : Nat) (dto : SurveyResponseSchema) (resp : Response)
    (hfind : db.responses.find? (pair_matches e s) = some resp) :
    ((process_row engine db (InRow.valid e s dto)).2.ai_analyzed = 1
       ↔ has_text_changes resp dto = true)
    ∧ (has_text_changes resp dto = true →
        (process_row engine db (InRow.valid e s dto)).1.sentiments
          = db.sentiments.filter (fun srow => decide (srow.response_id ≠ resp.id))
        ∧ (process_row engine db (InRow.valid e s dto)).2.updated = 1
        ∧ (process_row engine db (InRow.valid e s dto)).1.responses
          = replace_first (pair_matches e s)
              (fun r => update_response_data r dto) db.responses)
    ∧ (has_text_changes resp dto = false →
        (process_row engine db (InRow.valid e s dto)).1.sentiments = db.sentiments
        ∧ (process_row engine db (InRow.valid e s dto)).2.ai_analyzed = 0)
    ∧ (has_text_changes resp dto = false → has_any_changes resp dto = true →
        (process_row engine db (InRow.valid e s dto)).2.updated = 1
        ∧ (process_row engine db (InRow.valid e s dto)).1.responses
          = replace_first (pair_matches e s)
              (fun r => update_response_data r dto) db.responses
        ∧ (process_row engine db (InRow.valid e s dto)).1.sentiments
          = db.sentiments) := by
  rcases process_row_valid_spec engine db e s dto with ⟨resp', hf', hcase⟩ | ⟨hf', _⟩
  · rw [hfind] at hf'
    injection hf' with hr
    subst hr
    rcases hcase with ⟨hch, hout⟩ | ⟨hch, htc, hout⟩ | ⟨htc, hout⟩
    · have htc : has_text_changes resp dto = false := by
        cases h : has_text_changes resp dto
        · rfl
        · rw [has_text_changes_imp_any resp dto h] at hch; cases hch
      rw [hout]
      refine ⟨by simp [init_stats, htc], ?_, ?_, ?_⟩
      · intro h; rw [h] at htc; cases htc
      · intro _; exact ⟨rfl, rfl⟩
      · intro _ hany; rw [hany] at hch; cases hch
    · rw [hout]
      refine ⟨by simp [init_stats, htc], ?_, ?_, ?_⟩
      · intro h; rw [h] at htc; cases htc
      · intro _; exact ⟨rfl, rfl⟩
      · intro _ _; exact ⟨rfl, rfl, rfl⟩
    · rw [hout]
      have hresp := analyze_response_responses engine
        { db with
          responses := replace_first (pair_matches e s)
            (fun r => update_response_data r dto) db.responses,
          sentiments := db.sentiments.filter
            (fun srow => decide (srow.response_id ≠ resp.id)) }
        resp.id
      have hsent := analyze_response_sentiments_of_no_rows engine
        { db with
          responses := replace_first (pair_matches e s)
            (fun r => update_response_data r dto) db.responses,
          sentiments := db.sentiments.filter
            (fun srow => decide (srow.response_id ≠ resp.id)) }
        resp.id
        (by
          intro srow hs
          have := List.mem_filter.1 hs
          simpa using this.2)
      refine ⟨by simp [init_stats, htc], ?_, ?_, ?_⟩
      · intro _
        exact ⟨hsent, rfl, hresp.1⟩
      · intro h; rw [h] at htc; cases htc
      · intro h; rw [h] at htc; cases htc
  · rw [hfind] at hf'; cases hf'

def response_c1 : Response := update_response_data (blank_response 1 1 1) dto_c5

def sentiment_c1 : ResponseSentiment :=
  { id := 1, response_id := 1, field_name := "enps_comment",
    sentiment_label := "POSITIVE", sentiment_score := 1 }

/-- Same row as `dto_c5` except for the eNPS metric: a metric-only change. -/
def dto_c1 : SurveyResponseSchema := { dto_c5 with enps := some 9 }

def db_c1 : Db :=
  { empty_db with
      responses := [response_c1]
      sentiments := [sentiment_c1]
      next_response_id := 2 }

/-- Witness for C1: a metric-only change updates the response but keeps the
stored sentiment row and triggers no enrichment. -/
theorem text_changed_evaluated_pre_update_witness :
    (process_row engine_none db_c1 (InRow.valid 1 1 dto_c1)).2.updated = 1 ∧
    (process_row engine_none db_c1 (InRow.valid 1 1 dto_c1)).2.ai_analyzed = 0 ∧
    (process_row engine_none db_c1 (InRow.valid 1 1 dto_c1)).1.sentiments
      = db_c1.sentiments :=
  let h := text_changed_evaluated_pre_update engine_none db_c1 1 1 dto_c1
    response_c1 rfl
  ⟨(h.2.2.2 (by decide) (by decide)).1,
   (h.2.2.1 (by decide)).2,
   (h.2.2.1 (by decide)).1⟩

/-- Natural key of a response row. -/
def resp_key (r : Response) : Nat × Nat := (r.employee_id, r.survey_id)

/-- At most one Response per (employee_id, survey_id) pair. -/
def pair_unique (db : Db) : Prop := (db.responses.map resp_key).Nodup

/-- A negative `pair_matches` verdict means a different natural key. -/
theorem resp_key_ne_of_not_pair_matches (e s : Nat) (r : Response)
    (h : pair_matches e s r = false) : resp_key r ≠ (e, s) := by
  intro hk
  have h1 : r.employee_id = e := congrArg Prod.fst hk
  have h2 : r.survey_id = s := congrArg Prod.snd hk
  simp [pair_matches, h1, h2] at h

/-- Processing one row preserves pair uniqueness: updates are in place and a
creation happens only when the lookup found no row with that pair. -/
theorem process_row_pair_unique (engine : SentimentEngine) (db : Db)
    (row : InRow) (h : pair_unique db) :
    pair_unique ((process_row engine db row).1) := by
  cases row with
  | invalid => exact h
  | unresolved => exact h
  | valid e s dto =>
    rcases process_row_valid_spec engine db e s dto with ⟨resp, hf, hcase⟩ | ⟨hf, hout⟩
    · rcases hcase with ⟨_, hout⟩ | ⟨_, _, hout⟩ | ⟨_, hout⟩
      · rw [hout]; exact h
      · have hresp : (process_row engine db (InRow.valid e s dto)).1.responses
            = replace_first (pair_matches e s)
                (fun r => update_response_data r dto) db.responses := by
          rw [hout]
        unfold pair_unique
        rw [hresp, map_replace_first (pair_matches e s)
          (fun r => update_response_data r dto) resp_key db.responses (fun r => rfl)]
        exact h
      · have hresp : (process_row engine db (InRow.valid e s dto)).1.responses
            = replace_first (pair_matches e s)
                (fun r => update_response_data r dto) db.responses := by
          rw [hout]
          exact (analyze_response_responses engine _ _).1
        unfold pair_unique
        rw [hresp, map_replace_first (pair_matches e s)
          (fun r => update_response_data r dto) resp_key db.responses (fun r => rfl)]
        exact h
    · have hresp : (process_row engine db (InRow.valid e s dto)).1.responses
          = db.responses ++
              [update_response_data (blank_response db.next_response_id e s) dto] := by
        rw [hout]
        exact (analyze_response_responses engine _ _).1
      unfold pair_unique
      rw [hresp, List.map_append, List.nodup_append]
      refine ⟨h, List.nodup_singleton _, ?_⟩
      intro k hk
      rcases List.mem_map.1 hk with ⟨r, hr, hkey⟩
      have hnp : pair_matches e s r = false := by
        have := List.find?_eq_none.1 hf r hr
        simpa using this
      have := resp_key_ne_of_not_pair_matches e s r hnp
      subst hkey
      intro hmem
      rcases List.mem_map.1 hmem with ⟨r', hr', hkey'⟩
      rcases List.mem_singleton.1 hr' with rfl
      exact this hkey'.symm

/-- A full pass preserves pair uniqueness. -/
theorem process_rows_pair_unique (engine : SentimentEngine) (db : Db)
    (rows : List InRow) (h : pair_unique db) :
    pair_unique ((process_rows engine db rows).1) := by
  induction rows generalizing db with
  | nil => exact h
  | cons row rest ih => exact ih _ (process_row_pair_unique engine db row h)

/-- C4: for every (employee_id, survey_id) pair at most one Response exists
after any number of sequential pipeline runs, provided the invariant held
initially: the response pass mutates the found row in place and creates a
new Response only when the lookup finds none. -/
theorem response_pair_unique_after_runs (engine : SentimentEngine) (db : Db)
    (runs : List (List InRow)) (h : pair_unique db) :
    pair_unique (runs.foldl (fun d rows => (process_rows engine d rows).1) db) := by
  induction runs generalizing db with
  | nil => exact h
  | cons rows rest ih =>
    exact ih _ (process_rows_pair_unique engine db rows h)

/-- Witness for C4: two runs over rows that create and then update two
distinct pairs, starting from the empty database. -/
theorem response_pair_unique_after_runs_witness :
    pair_unique
      (([[InRow.valid 1 1 dto_c5, InRow.valid 2 1 dto_c5],
         [InRow.valid 1 1 dto_c1]] : List (List InRow)).foldl
        (fun d rows => (process_rows engine_none d rows).1) empty_db) :=
  response_pair_unique_after_runs engine_none empty_db
    [[InRow.valid 1 1 dto_c5, InRow.valid 2 1 dto_c5],
     [InRow.valid 1 1 dto_c1]] (by simp [pair_unique, empty_db])

/-- Natural key of an input row, when the row is valid. -/
def row_key : InRow → Option (Nat × Nat)
  | InRow.valid e s _ => some (e, s)
  | _ => none

/-- The first stored response matching a pair, as returned by
`Response.query.filter_by(...).first()`. -/
def first_match (db : Db) (e s : Nat) : Option Response :=
  db.responses.find? (pair_matches e s)

def valid_count (rows : List InRow) : Nat := (rows.filterMap row_key).length

def invalid_count (rows : List InRow) : Nat :=
  rows.countP (fun r => decide (r = InRow.invalid))

theorem process_rows_cons (engine : SentimentEngine) (db : Db) (row : InRow)
    (rest : List InRow) :
    process_rows engine db (row :: rest)
      = ((process_rows engine (process_row engine db row).1 rest).1,
         add_stats (process_row engine db row).2
           (process_rows engine (process_row engine db row).1 rest).2) := rfl

/-- Processing a row with a different key leaves the lookup result for a
pair unchanged. -/
theorem first_match_process_row_other (engine : SentimentEngine) (db : Db)
    (row : InRow) (e s : Nat) (hk : row_key row ≠ some (e, s)) :
    first_match ((process_row engine db row).1) e s = first_match db e s := by
  cases row with
  | invalid => rfl
  | unresolved => rfl
  | valid e' s' dto =>
    have hne : ¬(e' = e ∧ s' = s) := by
      rintro ⟨rfl, rfl⟩
      exact hk rfl
    have hdisj : ∀ x, pair_matches e s x = true → pair_matches e' s' x = false := by
      intro x hx
      have hx' : x.employee_id = e ∧ x.survey_id = s := by
        simpa [pair_matches] using hx
      rcases hx' with ⟨h1, h2⟩
      subst h1
      subst h2
      cases htr : pair_matches e' s' x
      · rfl
      · exfalso
        simp only [pair_matches, Bool.and_eq_true, decide_eq_true_eq] at htr
        exact hne ⟨htr.1.symm, htr.2.symm⟩
    rcases process_row_valid_spec engine db e' s' dto with ⟨resp, hf, hcase⟩ | ⟨hf, hout⟩
    · rcases hcase with ⟨_, hout⟩ | ⟨_, _, hout⟩ | ⟨_, hout⟩
      · rw [hout]
      · have hresp : (process_row engine db (InRow.valid e' s' dto)).1.responses
            = replace_first (pair_matches e' s')
                (fun r => update_response_data r dto) db.responses := by
          rw [hout]
        unfold first_match
        rw [hresp]
        exact find?_replace_first_disjoint (pair_matches e s) (pair_matches e' s')
          (fun r => update_response_data r dto) db.responses hdisj (fun x => rfl)
      · have hresp : (process_row engine db (InRow.valid e' s' dto)).1.responses
            = replace_first (pair_matches e' s')
                (fun r => update_response_data r dto) db.responses := by
          rw [hout]
          exact (analyze_response_responses engine _ _).1
        unfold first_match
        rw [hresp]
        exact find?_replace_first_disjoint (pair_matches e s) (pair_matches e' s')
          (fun r => update_response_data r dto) db.responses hdisj (fun x => rfl)
    · have hresp : (process_row engine db (InRow.valid e' s' dto)).1.responses
          = db.responses ++
              [update_response_data (blank_response db.next_response_id e' s') dto] := by
        rw [hout]
        exact (analyze_response_responses engine _ _).1
      unfold first_match
      rw [hresp, List.find?_append]
      have hnew : pair_matches e s
          (update_response_data (blank_response db.next_response_id e' s') dto) = false := by
        cases htr : pair_matches e s
          (update_response_data (blank_response db.next_response_id e' s') dto)
        · rfl
        · exfalso
          simp only [pair_matches, update_response_data, blank_response,
            Bool.and_eq_true, decide_eq_true_eq] at htr
          exact hne htr
      simp [List.find?_cons, hnew]

/-- Processing a list of rows none of which carries a given key leaves the
lookup result for that key unchanged. -/
theorem first_match_process_rows_other (engine : SentimentEngine) (db : Db)
    (rows : List InRow) (e s : Nat)
    (hk : ∀ row ∈ rows, row_key row ≠ some (e, s)) :
    first_match ((process_rows engine db rows).1) e s = first_match db e s := by
  induction rows generalizing db with
  | nil => rfl
  | cons row rest ih =>
    have step : first_match ((process_rows engine (process_row engine db row).1 rest).1) e s
        = first_match ((process_row engine db row).1) e s :=
      ih _ (fun r hr => hk r (List.mem_cons_of_mem _ hr))
    have base := first_match_process_row_other engine db row e s
      (hk row (List.mem_cons_self row rest))
    rw [process_rows_cons]
    exact step.trans base

/-- After a valid row is processed, the stored response for its pair exists
and compares as unchanged against the row's DTO. -/
theorem first_match_process_row_self (engine : SentimentEngine) (db : Db)
    (e s : Nat) (dto : SurveyResponseSchema) :
    ∃ resp, first_match ((process_row engine db (InRow.valid e s dto)).1) e s = some resp
      ∧ has_any_changes resp dto = false := by
  rcases process_row_valid_spec engine db e s dto with ⟨resp, hf, hcase⟩ | ⟨hf, hout⟩
  · rcases hcase with ⟨hch, hout⟩ | ⟨_, _, hout⟩ | ⟨_, hout⟩
    · exact ⟨resp, by rw [hout]; exact hf, hch⟩
    · refine ⟨update_response_data resp dto, ?_, has_any_changes_update resp dto⟩
      have hresp : (process_row engine db (InRow.valid e s dto)).1.responses
          = replace_first (pair_matches e s)
              (fun r => update_response_data r dto) db.responses := by
        rw [hout]
      unfold first_match
      rw [hresp, find?_replace_first_self (pair_matches e s)
        (fun r => update_response_data r dto) db.responses (fun x hx => hx), hf]
      rfl
    · refine ⟨update_response_data resp dto, ?_, has_any_changes_update resp dto⟩
      have hresp : (process_row engine db (InRow.valid e s dto)).1.responses
          = replace_first (pair_matches e s)
              (fun r => update_response_data r dto) db.responses := by
        rw [hout]
        exact (analyze_response_responses engine _ _).1
      unfold first_match
      rw [hresp, find?_replace_first_self (pair_matches e s)
        (fun r => update_response_data r dto) db.responses (fun x hx => hx), hf]
      rfl
  · refine ⟨update_response_data (blank_response db.next_response_id e s) dto, ?_,
      has_any_changes_update _ _⟩
    have hresp : (process_row engine db (InRow.valid e s dto)).1.responses
        = db.responses ++
            [update_response_data (blank_response db.next_response_id e s) dto] := by
      rw [hout]
      exact (analyze_response_responses engine _ _).1
    unfold first_match
    rw [hresp, List.find?_append, hf]
    have hnew : pair_matches e s
        (update_response_data (blank_response db.next_response_id e s) dto) = true := by
      simp [pair_matches, update_response_data, blank_response]
    simp [List.find?_cons, hnew]

/-- A matching row with no changes is skipped and mutates nothing. -/
theorem process_row_skip (engine : SentimentEngine) (db : Db) (e s : Nat)
    (dto : SurveyResponseSchema) (resp : Response)
    (hf : db.responses.find? (pair_matches e s) = some resp)
    (hch : has_any_changes resp dto = false) :
    process_row engine db (InRow.valid e s dto)
      = (db, { init_stats with skipped := 1 }) := by
  rcases process_row_valid_spec engine db e s dto with ⟨resp', hf', hcase⟩ | ⟨hf', _⟩
  · rw [hf] at hf'
    injection hf' with hr
    subst hr
    rcases hcase with ⟨_, hout⟩ | ⟨hany, _, _⟩ | ⟨htc, _⟩
    · exact hout
    · rw [hch] at hany; cases hany
    · rw [has_text_changes_imp_any _ _ htc] at hch; cases hch
  · rw [hf] at hf'; cases hf'

/-- After one pass, every valid row of the pass finds a stored response with
its pair that compares as unchanged against its DTO — provided no two valid
rows of the pass share a pair. -/
theorem run_establishes_no_changes (engine : SentimentEngine) (db : Db)
    (rows : List InRow) (hnd : (rows.filterMap row_key).Nodup) :
    ∀ row ∈ rows, ∀ e s dto, row = InRow.valid e s dto →
      ∃ resp, first_match ((process_rows engine db rows).1) e s = some resp
        ∧ has_any_changes resp dto = false := by
  induction rows generalizing db with
  | nil => intro row hr; cases hr
  | cons row0 rest ih =>
    intro row hr e s dto hrow
    have hnd_rest : (rest.filterMap row_key).Nodup := by
      cases row0 with
      | invalid => simpa [List.filterMap_cons, row_key] using hnd
      | unresolved => simpa [List.filterMap_cons, row_key] using hnd
      | valid e0 s0 dto0 =>
        have : ((e0, s0) :: rest.filterMap row_key).Nodup := by
          simpa [List.filterMap_cons, row_key] using hnd
        exact this.of_cons
    rcases List.mem_cons.1 hr with heq | hmem
    · subst heq
      subst hrow
      have hself := first_match_process_row_self engine db e s dto
      rcases hself with ⟨resp, hfm, hch⟩
      refine ⟨resp, ?_, hch⟩
      have hothers : ∀ r ∈ rest, row_key r ≠ some (e, s) := by
        intro r hrr hkey
        have hkcons : ((e, s) :: rest.filterMap row_key).Nodup := by
          simpa [List.filterMap_cons, row_key] using hnd
        have hmem2 : (e, s) ∈ rest.filterMap row_key :=
          List.mem_filterMap.2 ⟨r, hrr, hkey⟩
        exact (List.nodup_cons.1 hkcons).1 hmem2
      have hstable := first_match_process_rows_other engine
        (process_row engine db (InRow.valid e s dto)).1 rest e s hothers
      rw [process_rows_cons]
      exact hstable.trans hfm
    · have := ih (process_row engine db row0).1 hnd_rest row hmem e s dto hrow
      rw [process_rows_cons]
      exact this

/-- When every valid row already matches an unchanged stored response, a
pass mutates nothing and classifies every valid row as skipped and every
invalid row as an error. -/
theorem skip_run_of_no_changes (engine : SentimentEngine) (db : Db)
    (rows : List InRow)
    (h : ∀ row ∈ rows, ∀ e s dto, row = InRow.valid e s dto →
      ∃ resp, first_match db e s = some resp ∧ has_any_changes resp dto = false) :
    process_rows engine db rows =
      (db, { created := 0, updated := 0, skipped := valid_count rows,
             ai_analyzed := 0, errors := invalid_count rows }) := by
  induction rows with
  | nil =>
    show (db, init_stats) = _
    simp [init_stats, valid_count, invalid_count]
  | cons row rest ih =>
    have hrest := ih (fun r hr e s dto hrow =>
      h r (List.mem_cons_of_mem _ hr) e s dto hrow)
    cases row with
    | invalid =>
      rw [process_rows_cons]
      have hstep : process_row engine db InRow.invalid
          = (db, { init_stats with errors := 1 }) := rfl
      rw [hstep]
      simp only []
      rw [hrest]
      simp [add_stats, init_stats, valid_count, invalid_count,
        List.filterMap_cons, List.countP_cons, row_key]
      omega
    | unresolved =>
      rw [process_rows_cons]
      have hstep : process_row engine db InRow.unresolved = (db, init_stats) := rfl
      rw [hstep]
      simp only []
      rw [hrest]
      simp [add_stats, init_stats, valid_count, invalid_count,
        List.filterMap_cons, List.countP_cons, row_key]
    | valid e s dto =>
      rcases h (InRow.valid e s dto) (List.mem_cons_self _ _) e s dto rfl
        with ⟨resp, hfm, hch⟩
      have hstep := process_row_skip engine db e s dto resp hfm hch
      rw [process_rows_cons, hstep]
      simp only []
      rw [hrest]
      simp [add_stats, init_stats, valid_count, invalid_count,
        List.filterMap_cons, List.countP_cons, row_key]
      omega

/-- C2 (amended): when no two valid rows of the input share an
(employee, survey) pair, re-running the response pass on the state produced
by a first run of the same input classifies every valid row UNCHANGED:
created = 0, updated = 0, zero enrichment calls, every matching row counted
as skipped, and invalid rows counted as errors exactly as before. -/
theorem second_run_idempotent_of_distinct_pairs (engine : SentimentEngine)
    (db : Db) (rows : List InRow)
    (hnd : (rows.filterMap row_key).Nodup) :
    (process_rows engine ((process_rows engine db rows).1) rows).2
      = { created := 0, updated := 0, skipped := valid_count rows,
          ai_analyzed := 0, errors := invalid_count rows } := by
  have h := run_establishes_no_changes engine db rows hnd
  have hskip := skip_run_of_no_changes engine ((process_rows engine db rows).1) rows h
  rw [hskip]

/-- Rows used by the C2 witness: two distinct pairs and one invalid row. -/
def rows_c2 : List InRow :=
  [InRow.valid 1 1 dto_c5, InRow.invalid, InRow.valid 2 1 dto_c1]

/-- Witness for the amended C2 on a concrete input with distinct pairs. -/
theorem second_run_idempotent_of_distinct_pairs_witness :
    (process_rows engine_none
        ((process_rows engine_none empty_db rows_c2).1) rows_c2).2
      = { created := 0, updated := 0, skipped := 2, ai_analyzed := 0,
          errors := 1 } := by
  rw [second_run_idempotent_of_distinct_pairs engine_none empty_db rows_c2
    (by decide)]
  decide

/-- Two rows with the same (employee, survey) pair but different eNPS
comments. -/
def dto_a : SurveyResponseSchema := { dto_c5 with enps_comment := some "AAAA" }

def dto_b : SurveyResponseSchema := { dto_c5 with enps_comment := some "BBBB" }

def rows_dup : List InRow := [InRow.valid 1 1 dto_a, InRow.valid 1 1 dto_b]

/-- C2 counterexample: on an input containing two rows with the same
(employee, survey) pair but different comment text, the second run of the
pass on identical input reports updated = 2 (and two enrichment calls), not
updated = 0 — each row flips the stored text back and forth, so the claimed
unconditional idempotence fails. -/
theorem second_run_duplicate_pair_not_idempotent :
    (process_rows engine_none
        ((process_rows engine_none empty_db rows_dup).1) rows_dup).2.updated = 2
    ∧ ¬ ((process_rows engine_none
        ((process_rows engine_none empty_db rows_dup).1) rows_dup).2.updated = 0
      ∧ (process_rows engine_none
        ((process_rows engine_none empty_db rows_dup).1) rows_dup).2.ai_analyzed = 0) := by
  constructor
  · decide
  · intro hcl
    cases hcl.1.symm.trans (by decide :
      (process_rows engine_none
        ((process_rows engine_none empty_db rows_dup).1) rows_dup).2.updated = 2)

def email_ok_any : String → Bool := fun _ => true

/-- Employee row whose location column carries the placeholder dash. -/
def raw_emp_dash : RawEmployeeRow :=
  { nome := "Ana", email := "ana@x.com", email_corporativo := "ana@corp.com",
    area := "Tech", cargo := "Dev", funcao := "Eng", localidade := "-",
    tempo_de_empresa := "entre 1 e 2 anos", genero := "F", geracao := "Y",
    n0_empresa := "Acme", n1_diretoria := "D1", n2_gerencia := "G1",
    n3_coordenacao := "C1", n4_area := "A1" }

/-- C9 counterexample: the employee validator keeps the placeholder dash in
the `location` field — `empty_str_to_none` is declared only for
`corporate_email`, `role` and `function`, so a dash in any other employee
string field is stored as the literal value, contradicting the claim that
every blank or dash value of every field maps to absent. -/
theorem employee_location_dash_kept :
    (validate_employee email_ok_any raw_emp_dash).map
        (fun rec => rec.location) = some (some "-")
    ∧ some "-" ≠ (none : Option String) := by
  exact ⟨rfl, by decide⟩

/-- Lemma: a blank or dash string is normalized to `None`. -/
theorem empty_str_to_none_blank (v : String)
    (h : py_strip v = "" ∨ v = "-") : empty_str_to_none v = none := by
  unfold empty_str_to_none
  rw [if_pos h]

/-- Lemma: a blank or dash metric value validates to an absent metric. -/
theorem validate_metric_blank (v : String)
    (h : py_strip v = "" ∨ v = "-") : validate_metric v = some none := by
  unfold validate_metric
  rw [empty_str_to_none_blank v h]

/-- C9 (amended): during validation, blank or placeholder-dash values are
mapped to absent for every field of the survey-response record (all 8
metrics and all 8 comments), but on the employee record only for
`corporate_email`, `role` and `function`; the remaining employee string
fields keep the raw value. -/
theorem blank_dash_normalization_scope
    (email_ok : String → Bool) (emp_row : RawEmployeeRow) (rec : EmployeeSchema)
    (hemp : validate_employee email_ok emp_row = some rec)
    (srow : RawSurveyRow) (dto : SurveyResponseSchema)
    (hsur : validate_survey_payload srow = some dto) :
    (rec.corporate_email = empty_str_to_none emp_row.email_corporativo
     ∧ rec.role = empty_str_to_none emp_row.cargo
     ∧ rec.function = empty_str_to_none emp_row.funcao
     ∧ rec.location = some emp_row.localidade)
    ∧ (dto.role_interest_comment = empty_str_to_none srow.comentarios_interesse
       ∧ dto.contribution_comment = empty_str_to_none srow.comentarios_contribuicao
       ∧ dto.learning_comment = empty_str_to_none srow.comentarios_aprendizado
       ∧ dto.feedback_comment = empty_str_to_none srow.comentarios_feedback
       ∧ dto.manager_interaction_comment = empty_str_to_none srow.comentarios_interacao
       ∧ dto.career_clarity_comment = empty_str_to_none srow.comentarios_clareza
       ∧ dto.permanence_comment = empty_str_to_none srow.comentarios_permanencia
       ∧ dto.enps_comment = empty_str_to_none srow.aberta_enps)
    ∧ (∀ v : String, (py_strip v = "" ∨ v = "-") → empty_str_to_none v = none)
    ∧ ((py_strip srow.interesse_no_cargo = "" ∨ srow.interesse_no_cargo = "-") →
        dto.role_interest = none)
    ∧ ((py_strip srow.contribuicao = "" ∨ srow.contribuicao = "-") →
        dto.contribution = none)
    ∧ ((py_strip srow.aprendizado = "" ∨ srow.aprendizado = "-") →
        dto.learning = none)
    ∧ ((py_strip srow.feedback = "" ∨ srow.feedback = "-") →
        dto.feedback_score = none)
    ∧ ((py_strip srow.interacao_com_gestor = "" ∨ srow.interacao_com_gestor = "-") →
        dto.manager_interaction = none)
    ∧ ((py_strip srow.clareza_carreira = "" ∨ srow.clareza_carreira = "-") →
        dto.career_clarity = none)
    ∧ ((py_strip srow.expectativa_permanencia = "" ∨ srow.expectativa_permanencia = "-") →
        dto.permanence = none)
    ∧ ((py_strip srow.enps = "" ∨ srow.enps = "-") → dto.enps = none) := by
  have hrec : rec =
      { name := emp_row.nome
        email := emp_row.email
        corporate_email := empty_str_to_none emp_row.email_corporativo
        department := emp_row.area
        role := empty_str_to_none emp_row.cargo
        function := empty_str_to_none emp_row.funcao
        location := some emp_row.localidade
        tenure := some emp_row.tempo_de_empresa
        gender := some emp_row.genero
        generation := some emp_row.geracao
        company_level_0 := some emp_row.n0_empresa
        directorate_level_1 := some emp_row.n1_diretoria
        management_level_2 := some emp_row.n2_gerencia
        coordination_level_3 := some emp_row.n3_coordenacao
        area_level_4 := some emp_row.n4_area } := by
    unfold validate_employee at hemp
    by_cases hok : email_ok emp_row.email = true
    · rw [if_pos hok] at hemp
      exact (Option.some.inj hemp).symm
    · rw [if_neg hok] at hemp
      cases hemp
  subst hrec
  simp only [validate_survey_payload, bind, Option.bind_eq_some, pure,
    Option.some.injEq] at hsur
  obtain ⟨ri, hri, co, hco, le, hle, fb, hfb, mi, hmi, cc, hcc, pe, hpe, en,
    hen, hmk⟩ := hsur
  subst hmk
  refine ⟨⟨rfl, rfl, rfl, rfl⟩, ⟨rfl, rfl, rfl, rfl, rfl, rfl, rfl, rfl⟩,
    empty_str_to_none_blank, ?_, ?_, ?_, ?_, ?_, ?_, ?_, ?_⟩
  · intro h
    rw [validate_metric_blank _ h] at hri
    exact (Option.some.inj hri).symm
  · intro h
    rw [validate_metric_blank _ h] at hco
    exact (Option.some.inj hco).symm
  · intro h
    rw [validate_metric_blank _ h] at hle
    exact (Option.some.inj hle).symm
  · intro h
    rw [validate_metric_blank _ h] at hfb
    exact (Option.some.inj hfb).symm
  · intro h
    rw [validate_metric_blank _ h] at hmi
    exact (Option.some.inj hmi).symm
  · intro h
    rw [validate_metric_blank _ h] at hcc
    exact (Option.some.inj hcc).symm
  · intro h
    rw [validate_metric_blank _ h] at hpe
    exact (Option.some.inj hpe).symm
  · intro h
    rw [validate_metric_blank _ h] at hen
    exact (Option.some.inj hen).symm

/-- Survey-response row with every payload column set to the dash. -/
def raw_survey_dash : RawSurveyRow :=
  { interesse_no_cargo := "-", contribuicao := "-", aprendizado := "-",
    feedback := "-", interacao_com_gestor := "-", clareza_carreira := "-",
    expectativa_permanencia := "-", enps := "-",
    comentarios_interesse := "-", comentarios_contribuicao := "-",
    comentarios_aprendizado := "-", comentarios_feedback := "-",
    comentarios_interacao := "-", comentarios_clareza := "-",
    comentarios_permanencia := "-", aberta_enps := "-" }

def dto_all_none : SurveyResponseSchema :=
  { role_interest := none, contribution := none, learning := none,
    feedback_score := none, manager_interaction := none,
    career_clarity := none, permanence := none, enps := none,
    role_interest_comment := none, contribution_comment := none,
    learning_comment := none, feedback_comment := none,
    manager_interaction_comment := none, career_clarity_comment := none,
    permanence_comment := none, enps_comment := none }

def emp_rec_dash : EmployeeSchema :=
  { name := "Ana", email := "ana@x.com", corporate_email := some "ana@corp.com",
    department := "Tech", role := some "Dev", function := some "Eng",
    location := some "-", tenure := some "entre 1 e 2 anos",
    gender := some "F", generation := some "Y", company_level_0 := some "Acme",
    directorate_level_1 := some "D1", management_level_2 := some "G1",
    coordination_level_3 := some "C1", area_level_4 := some "A1" }

/-- Witness for the amended C9 on concrete rows. -/
theorem blank_dash_normalization_scope_witness :
    emp_rec_dash.role = empty_str_to_none raw_emp_dash.cargo ∧
    dto_all_none.enps_comment = empty_str_to_none raw_survey_dash.aberta_enps ∧
    dto_all_none.role_interest = none := by
  have h := blank_dash_normalization_scope email_ok_any raw_emp_dash
    emp_rec_dash rfl raw_survey_dash dto_all_none rfl
  exact ⟨h.1.2.1, h.2.1.2.2.2.2.2.2.2, h.2.2.2.1 (Or.inr rfl)⟩

example : py_strip "  nice day \t" = "nice day" := by decide
example : py_split_ws "5 stars" = ["5", "stars"] := by decide
example : py_split_ws "   " = [] := by decide
example : py_int_of_token "5" = some 5 := by decide
example : py_int_of_token "-12" = some (-12) := by decide
example : py_int_of_token "1_0" = some 10 := by decide
example : py_int_of_token "stars" = none := by decide
example : py_int_of_token "" = none := by decide
example : py_int_of_token "+" = none := by decide
